import Mathlib

/-!
# Verification of the dirsearch scan-control and calibration logic

Shallow embedding of the two source files of the repository:

* `src/lib/core/scanner.py` — the false-positive calibration engine
  (`Scanner.setup`, `Scanner.generateRedirectRegExp`, `Scanner.scan`);
* `src/lib/controller/controller.py` — the scan controller
  (queue seeding, `Controller.addDirectory`, `Controller.addPort`,
  `Controller.addRedirectDirectory`, the skip-on-status handling of
  `Controller.matchCallback` / `Controller.processPaths`).

Python strings are modelled as Lean `String` (treated as a list of
characters), Python `None` as `Option.none`, HTTP statuses as `Nat`, and
Python floats as exact rationals `ℚ` (the float literals 0.98, 0.1, 0.15
of the source become the rationals 98/100, 1/10, 15/100; none of the
claims depends on binary floating-point rounding).  External collaborators
(the `DynamicContentParser` body comparator of thirdparty sqlmap and
`urllib.parse.urljoin`) are abstracted as function parameters.
All definitions are structurally recursive so that concrete instances
evaluate inside the kernel.
-/

/-! ## Python string primitives -/

/-- Python `str.split(sep)[…]` for a single-character separator, on the
character list: splits at every occurrence of `sep`, keeping empty
groups; `"".split(sep) = [""]`. -/
def pySplitL (sep : Char) : List Char → List (List Char)
  | [] => [[]]
  | c :: cs =>
    if c = sep then [] :: pySplitL sep cs
    else
      match pySplitL sep cs with
      | [] => [[c]]
      | g :: gs => (c :: g) :: gs

/-- Python `s.split(sep)` for a single-character separator. -/
def pySplit (sep : Char) (s : String) : List String :=
  (pySplitL sep s.data).map String.mk

/-- Python `s.count(sep)` for a single-character needle. -/
def countChar (c : Char) (s : String) : Nat :=
  s.data.count c

/-- Python `s.rstrip("/")`: remove every trailing `'/'`. -/
def rstripSlash (s : String) : String :=
  String.mk ((s.data.reverse.dropWhile (fun c => c == '/')).reverse)

/-- Python `s.split(c)[0]`: the part of `s` before the first occurrence
of `c` (the whole string when `c` does not occur). -/
def takeUntilChar (c : Char) (s : String) : String :=
  String.mk (s.data.takeWhile (fun d => d ≠ c))

/-- Python `"/".join(xs)`. -/
def joinSlash : List String → String
  | [] => ""
  | [x] => x
  | x :: xs => x ++ "/" ++ joinSlash xs

/-- Python `s.startswith(p)`. -/
def sStartsWith (s p : String) : Bool :=
  p.data.isPrefixOf s.data

/-- Python `s.endswith(c)` for a single-character suffix `c`. -/
def endsWithChar (c : Char) (s : String) : Bool :=
  s.data.getLast? == some c

/-- Fuel-indexed worker for Python `str.replace`: replaces every
non-overlapping occurrence of `old` in the subject, scanning left to
right and continuing after the replacement text.  The fuel is a strict
upper bound on the number of characters still to be consumed; with
`fuel = length + 1` it never runs out. -/
def replaceFuel : Nat → List Char → List Char → List Char → List Char
  | 0, s, _, _ => s
  | _ + 1, [], old, new => if old.isEmpty then new else []
  | fuel + 1, c :: rest, old, new =>
    if old.isEmpty then new ++ c :: replaceFuel fuel rest old new
    else if old.isPrefixOf (c :: rest) then
      new ++ replaceFuel fuel (List.drop (old.length - 1) rest) old new
    else c :: replaceFuel fuel rest old new

/-- Python `s.replace(old, new)` (all occurrences). -/
def pyReplace (s old new : String) : String :=
  String.mk (replaceFuel (s.data.length + 1) s.data old.data new.data)

/-- Python truthiness of an optional string: `None` and `""` are falsy. -/
def truthyS : Option String → Bool
  | none => false
  | some s => !s.data.isEmpty

/-! ## Regular-expression fragment

`Scanner.generateRedirectRegExp` only ever produces regexes of the shape
`^L$` or `^L.*M$`, where `L` and `M` are `re.escape`-d literals possibly
containing the `DIRSEARCH_PATH` placeholder, and `Scanner.scan`
substitutes an `re.escape`-d path for the placeholder.  We model exactly
this fragment: a tokenizer for backslash escapes / `.` / `.*` and a
matcher.  `reMatch` interprets the pattern as `re.match` does on this
fragment: anchored at the start, with the trailing `$` (always present in
the generated patterns) requiring a full match.  (The Python `$` would
also accept one trailing newline; no claim exercises that corner.) -/

/-- The characters escaped by Python 3.8 `re.escape`. -/
def reSpecial (c : Char) : Bool :=
  c ∈ ['(', ')', '[', ']', Char.ofNat 123, Char.ofNat 125, '?', '*', '+',
       '-', '|', '^', '$', '\\', '.', '&', '~', '#', ' ', '\t', '\n',
       '\r', Char.ofNat 11, Char.ofNat 12]

/-- `re.escape` on a character list. -/
def reEscapeL : List Char → List Char
  | [] => []
  | c :: cs => (if reSpecial c then ['\\', c] else [c]) ++ reEscapeL cs

/-- Python `re.escape`. -/
def reEscape (s : String) : String :=
  String.mk (reEscapeL s.data)

/-- Tokens of the regex fragment produced by the scanner: a literal
character (either plain or backslash-escaped), the `.` wildcard, and the
`.*` gap. -/
inductive Tok where
  | lit (c : Char)
  | dot
  | star
deriving DecidableEq, Repr

/-- Tokenize the body of a generated regex (the part between `^` and
`$`): `\\c` is a literal `c`, `.*` is the gap, a bare `.` is the
wildcard, anything else is a literal. -/
def tokenize : List Char → List Tok
  | [] => []
  | ['\\'] => []
  | '\\' :: d :: rest => .lit d :: tokenize rest
  | '.' :: '*' :: rest => .star :: tokenize rest
  | '.' :: rest => .dot :: tokenize rest
  | c :: rest => .lit c :: tokenize rest

/-- Match a token list against a character list.  `lit` matches one equal
character, `dot` one arbitrary character other than newline, `star` any
newline-free run (Python `.` does not match `\n`). -/
def matchToks : List Tok → List Char → Bool
  | [], ds => ds.isEmpty
  | .lit _ :: _, [] => false
  | .lit c :: ts, d :: ds => c == d && matchToks ts ds
  | .dot :: _, [] => false
  | .dot :: ts, d :: ds => d != '\n' && matchToks ts ds
  | .star :: ts, ds =>
    (List.range (ds.length + 1)).any (fun n =>
      (ds.take n).all (fun c => c != '\n') && matchToks ts (ds.drop n))

/-- `re.match(pattern, s)` (as a full-match Boolean) for the generated
patterns, which always have the shape `^ body $`: strip the two anchors
and match the tokenized body against all of `s`. -/
def reMatch (pattern s : String) : Bool :=
  matchToks (tokenize ((pattern.data.drop 1).dropLast)) s.data

/-! ## Scanner (src/lib/core/scanner.py) -/

/-- An HTTP response as the scanner sees it: status code, optional body,
optional redirect location (`None` when the header is absent). -/
structure Response where
  status : Nat
  body : Option String
  redirect : Option String
deriving DecidableEq, Repr

/-- The calibration profile built by `Scanner.setup`: the invalid status
code, the optional generalized redirect pattern, whether a body
comparator (`dynamicParser`) was built, and the similarity threshold
(`self.ratio`, initially 0.98). -/
structure ScannerState where
  invalidStatus : Nat
  redirectRegExp : Option String
  hasDynamicParser : Bool
  ratio : ℚ
deriving DecidableEq, Repr

/-- The forward walk of `generateRedirectRegExp`: escape characters while
the two locations agree, emit `.*` and stop at the first divergence
(`zip` truncates at the shorter location). -/
def forwardWalk : List (Char × Char) → List Char
  | [] => []
  | (f, s) :: rest =>
    if f = s then (if reSpecial f then ['\\', f] else [f]) ++ forwardWalk rest
    else ['.', '*']

/-- The backward walk of `generateRedirectRegExp`: over the reversed
locations, accumulate escaped common-suffix characters in front of `acc`
until the first divergence. -/
def backWalk : List (Char × Char) → List Char → List Char
  | [], acc => acc
  | (f, s) :: rest, acc =>
    if f = s then backWalk rest ((if reSpecial f then ['\\', f] else [f]) ++ acc)
    else acc

/-- `Scanner.generateRedirectRegExp` (scanner.py lines 84-106): replace
each probed path with the placeholder in its redirect location, walk the
two locations from the front until divergence (escaping the common
prefix, then `.*`), and — only when the pattern so far ends in `*` — walk
from the back to append the escaped common suffix; anchor with `^`/`$`. -/
def generateRedirectRegExp (firstLoc firstPath secondLoc secondPath : String) : String :=
  let f1 := (pyReplace firstLoc firstPath "DIRSEARCH_PATH").data
  let s1 := (pyReplace secondLoc secondPath "DIRSEARCH_PATH").data
  let start := '^' :: forwardWalk (f1.zip s1)
  let tail :=
    if start.getLast? == some '*' then backWalk (f1.reverse.zip s1.reverse) []
    else []
  String.mk (start ++ tail ++ ['$'])

/-- The placeholder substitution performed by `Scanner.scan` before the
redirect test: `self.redirectRegExp.replace("DIRSEARCH_PATH",
re.escape(path))`. -/
def substRedirect (rx path : String) : String :=
  pyReplace rx "DIRSEARCH_PATH" (reEscape path)

/-- Python `float("{0:.2f}".format(x))`: rounding to two decimals.  (The
Python format rounds the binary double half-to-even; this model rounds
half-up — no claim evaluates the function at a tie.) -/
def round2 (q : ℚ) : ℚ :=
  (Int.floor (q * 100 + 1 / 2) : ℚ) / 100

/-- `Scanner.setup` (scanner.py lines 42-82) as a function of the two
calibration probes.  `firstPath`/`secondPath` are the probed paths,
`fr`/`sr` the two baseline responses, `cmpRatio` the
`DynamicContentParser.comparisonRatio` measured on the two bodies
(external collaborator, abstracted), and `firstLen` the value of
`len(firstResponse)`.  Returns `.error ()` when the Python code raises
(`AttributeError: 'NoneType' object has no attribute 'comparisonRatio'`
on line 73-74 after the body guard set `self.dynamicParser = None`). -/
def setup (firstPath : String) (fr : Response) (secondPath : String) (sr : Response)
    (cmpRatio : ℚ) (firstLen : Nat) : Except Unit ScannerState :=
  if fr.status = 404 then
    .ok { invalidStatus := fr.status, redirectRegExp := none,
          hasDynamicParser := false, ratio := 98 / 100 }
  else
    let rx :=
      if truthyS fr.redirect && truthyS sr.redirect then
        some (generateRedirectRegExp (fr.redirect.getD "") firstPath
          (sr.redirect.getD "") secondPath)
      else none
    match fr.body, sr.body with
    | some _, some _ =>
      let baseRatio := round2 cmpRatio
      let baseRatio := if firstLen < 2000 then baseRatio - 1 / 10 else baseRatio
      .ok { invalidStatus := fr.status, redirectRegExp := rx,
            hasDynamicParser := true,
            ratio := if baseRatio < 98 / 100 then baseRatio else 98 / 100 }
    | _, _ => .error ()

/-- The redirect test of `Scanner.scan` (lines 115-123): performed only
when both `self.redirectRegExp` and `response.redirect` are truthy;
`some b` means the test ran and `re.match` returned a match (`b = true`)
or `None` (`b = false`); `none` means the test was not performed. -/
def redirectCheckResult (rx? redirect? : Option String) (path : String) : Option Bool :=
  match rx?, redirect? with
  | some rx, some loc =>
    if rx.data.isEmpty || loc.data.isEmpty then none
    else some (reMatch (substRedirect rx path) loc)
  | _, _ => none

/-- `Scanner.scan` (scanner.py lines 108-133).  `f` abstracts
`self.dynamicParser.compareTo` (external collaborator). -/
def scan (st : ScannerState) (f : Option String → ℚ) (path : String) (r : Response) : Bool :=
  if st.invalidStatus = r.status ∧ r.status = 404 then false
  else if st.invalidStatus ≠ r.status then true
  else
    match redirectCheckResult st.redirectRegExp r.redirect path with
    | some false => true
    | checked =>
      if f r.body ≥ st.ratio then false
      else if checked = some true ∧ f r.body ≥ st.ratio - 15 / 100 then false
      else true

/-! ## Controller (src/lib/controller/controller.py) -/

/-- The per-target configuration consulted by `Controller.addDirectory`:
the current directory of the active job, the exclusion and
manually-specified subdirectory lists, the recursion-depth cap
(`0` models the falsy `None`/`0` "no cap"), and the three recursion-mode
flags. -/
structure AddDirCtx where
  currentDirectory : String
  excludeSubdirs : List String
  scanSubdirs : List String
  recursion_depth : Nat
  deep_recursive : Bool
  force_recursive : Bool
  recursive : Bool
deriving DecidableEq, Repr

/-- The mutable controller state touched by `addDirectory`: the FIFO
directory queue (front = next job), the done-set (`self.doneDirs`, a
list in the source), and the total job counter `self.allJobs`. -/
structure DirState where
  directories : List String
  doneDirs : List String
  allJobs : Nat
deriving DecidableEq, Repr

/-- `path.split("?")[0].split("#")[0]` (controller.py line 610). -/
def cleanPath (p : String) : String :=
  takeUntilChar '#' (takeUntilChar '?' p)

/-- The body of the `for dir in dirs` loop of `addDirectory`
(controller.py lines 630-642): skip candidates that are
manually-specified scan subdirectories, already done, or beyond the
depth cap; otherwise enqueue, mark done, bump the job counter and set
the `added` flag. -/
def addDirStep (ctx : AddDirCtx) (acc : DirState × Bool) (dir : String) : DirState × Bool :=
  if dir ∈ ctx.scanSubdirs then acc
  else if dir ∈ acc.1.doneDirs then acc
  else if ctx.recursion_depth ≠ 0 ∧ countChar '/' dir > ctx.recursion_depth then acc
  else
    ({ directories := acc.1.directories ++ [dir],
       doneDirs := acc.1.doneDirs ++ [dir],
       allJobs := acc.1.allJobs + 1 }, true)

/-- The candidate list `dirs` built by `addDirectory` (controller.py
lines 615-628) from the cleaned path `q`: in deep mode one candidate per
path-prefix level `i ∈ range(1, q.count("/") + 1)`; in forced mode the
full path with a trailing slash ensured; in plain recursive mode the
full path only when it already ends in `/`. -/
def candidateDirs (ctx : AddDirCtx) (q : String) : List String :=
  let fullPath := ctx.currentDirectory ++ q
  (if ctx.deep_recursive then
    (List.range' 1 (countChar '/' q)).map (fun i =>
      rstripSlash (pyReplace fullPath q "" ++ joinSlash ((pySplit '/' q).take i)) ++ "/")
  else []) ++
  (if ctx.force_recursive then
    [if endsWithChar '/' fullPath then fullPath else fullPath ++ "/"]
  else if ctx.recursive && endsWithChar '/' fullPath then [fullPath] else [])

/-- `Controller.addDirectory` (controller.py lines 608-644). -/
def addDirectory (ctx : AddDirCtx) (st : DirState) (path : String) : DirState × Bool :=
  let q := cleanPath path
  if ctx.excludeSubdirs.any (fun d => sStartsWith q d) then (st, false)
  else (candidateDirs ctx q).foldl (addDirStep ctx) (st, false)

/-- `Controller.addPort` (controller.py lines 646-652): if the netloc
chunk `url.split("/")[2]` carries no `:`, append the scheme-default port
and rejoin.  (The Python code raises `IndexError` on a URL with fewer
than three `/`-chunks; that case is unreachable for resolved absolute
URLs and is modelled as the identity.) -/
def addPort (url : String) : String :=
  match pySplit '/' url with
  | c0 :: c1 :: c2 :: rest =>
    if c2.data.contains ':' then url
    else joinSlash (c0 :: c1 :: (c2 ++ (if c0 = "http:" then ":80" else ":443")) :: rest)
  | _ => url

/-- `Controller.addRedirectDirectory` (controller.py lines 654-668).
`resolve` abstracts `urllib.parse.urljoin` (standard library).  When the
port-normalized resolved redirect is a proper sub-path of the probe URL
(`baseUrl + basePath + currentDirectory + probePath` followed by `/`),
the prefix up to the current directory is stripped and the remainder is
handed to `addDirectory`; otherwise nothing is enqueued and the function
returns `false`. -/
def addRedirectDirectory (ctx : AddDirCtx) (baseUrl basePath : String)
    (resolve : String → String → String) (st : DirState)
    (probePath redirectLoc : String) : DirState × Bool :=
  let base := baseUrl ++ basePath ++ ctx.currentDirectory ++ probePath
  let redirectUrl := addPort (resolve baseUrl redirectLoc)
  if sStartsWith redirectUrl (base ++ "/") then
    addDirectory ctx st (pyReplace redirectUrl (baseUrl ++ basePath ++ ctx.currentDirectory) "")
  else (st, false)

/-- One probe result as delivered to the controller callbacks. -/
structure ProbeResult where
  path : String
  status : Nat
  body : String
  redirect : Option String
deriving DecidableEq, Repr

/-- The recursion step of `Controller.matchCallback` (controller.py
lines 465-475): only when some recursion mode is on and the status
passes the recursion-status allowlist; a redirecting result goes through
`addRedirectDirectory`, a plain one through `addDirectory`. -/
def recurseOnResult (ctx : AddDirCtx) (recursionStatusCodes : List Nat)
    (baseUrl basePath : String) (resolve : String → String → String)
    (st : DirState) (r : ProbeResult) : DirState × Bool :=
  if (ctx.recursive || ctx.deep_recursive || ctx.force_recursive)
      && (recursionStatusCodes.isEmpty || recursionStatusCodes.contains r.status) then
    if truthyS r.redirect then
      addRedirectDirectory ctx baseUrl basePath resolve st r.path (r.redirect.getD "")
    else addDirectory ctx st r.path
  else (st, false)

/-- The queue seeding of `Controller.__init__` (controller.py lines
221-225).  The source is a `for … else` statement; since the loop body
contains no `break`, the `else` suite runs unconditionally, so the root
directory `""` is enqueued after the subdirectories in every case. -/
def seedQueue (scanSubdirs : List String) : List String :=
  scanSubdirs ++ [""]

/-- `self.allJobs = len(self.scanSubdirs) if self.scanSubdirs else 1`
(controller.py line 150). -/
def initAllJobs (scanSubdirs : List String) : Nat :=
  if scanSubdirs.isEmpty then 1 else scanSubdirs.length

/-- Outcome of the filter steps of `matchCallback` that follow the
skip-on-status loop (steps 2-6 of the pipeline): the result is either
rejected or reported as a finding.  Those steps involve external
formatting helpers (`FileUtils.size_human`, report objects) and are
abstracted as a function into this type. -/
inductive PostSkipAction where
  | reject
  | finding (p : String)
deriving DecidableEq, Repr

/-- What one invocation of `matchCallback` does with a result. -/
inductive MatchAction where
  | skip (code : Nat)
  | reject
  | finding (p : String)
deriving DecidableEq, Repr

/-- The skip-on-status loop of `matchCallback` (controller.py lines
421-424): the first configured code equal to the response status, if
any. -/
def firstSkip (skips : List Nat) (status : Nat) : Option Nat :=
  skips.find? (fun s => status == s)

/-- `Controller.matchCallback` (controller.py lines 418-489) with the
post-skip filter pipeline abstracted as `rest`: a status in the
skip-on-status list records the skip signal and returns before any other
step runs. -/
def matchCallbackAction (skips : List Nat) (rest : ProbeResult → PostSkipAction)
    (r : ProbeResult) : MatchAction :=
  match firstSkip skips r.status with
  | some c => MatchAction.skip c
  | none =>
    match rest r with
    | PostSkipAction.reject => MatchAction.reject
    | PostSkipAction.finding p => MatchAction.finding p

/-- The per-job result loop: `matchCallback` on each result in turn,
with the `processPaths` poll (controller.py lines 560-582) observing the
skip signal and raising `SkipTargetInterrupt` — modelled as
`Except.error code` — so that the remaining results of the target are
never processed as findings.  (The concurrent fuzzer is idealized as
sequential delivery, per the cooperative polling model of the spec.) -/
def runJob (skips : List Nat) (rest : ProbeResult → PostSkipAction) :
    List ProbeResult → Except Nat (List String)
  | [] => .ok []
  | r :: rs =>
    match matchCallbackAction skips rest r with
    | MatchAction.skip c => .error c
    | MatchAction.reject => runJob skips rest rs
    | MatchAction.finding p => (runJob skips rest rs).map (fun l => p :: l)

/-- The three skip conditions of the `addDirectory` loop relative to a
done-set `done`. -/
def stepSkips (ctx : AddDirCtx) (done : List String) (dir : String) : Prop :=
  dir ∈ ctx.scanSubdirs ∨ dir ∈ done ∨
    (ctx.recursion_depth ≠ 0 ∧ countChar '/' dir > ctx.recursion_depth)

/-! ## Helper lemmas -/

/-- Dropping the last element of an append drops it from the right part
when that part is non-empty. -/
theorem dropLast_append_right {α : Type} (l₁ l₂ : List α) (h : l₂ ≠ []) :
    (l₁ ++ l₂).dropLast = l₁ ++ l₂.dropLast := by
  induction l₁ with
  | nil => rfl
  | cons c l₁ ih =>
    cases hx : l₁ ++ l₂ with
    | nil => exact absurd (List.append_eq_nil.mp hx).2 h
    | cons d t => simp [List.dropLast, hx, ← ih]

/-- An ordinary character (neither `\\` nor `.`) tokenizes to itself. -/
theorem tokenize_cons (c : Char) (l : List Char) (h1 : c ≠ '\\') (h2 : c ≠ '.') :
    tokenize (c :: l) = .lit c :: tokenize l := by
  rcases l with _ | ⟨d, rest⟩ <;> simp [tokenize, h1, h2]

/-- Characters left unescaped by `re.escape` are not the backslash. -/
theorem not_reSpecial_backslash (c : Char) (h : reSpecial c = false) : c ≠ '\\' := by
  intro hc
  subst hc
  simp [reSpecial] at h

/-- Characters left unescaped by `re.escape` are not the dot. -/
theorem not_reSpecial_dot (c : Char) (h : reSpecial c = false) : c ≠ '.' := by
  intro hc
  subst hc
  simp [reSpecial] at h

/-- Tokenizing an `re.escape`-d text (followed by anything) yields the
original characters as literal tokens. -/
theorem tokenize_reEscapeL_append (cs rest : List Char) :
    tokenize (reEscapeL cs ++ rest) = cs.map Tok.lit ++ tokenize rest := by
  induction cs with
  | nil => rfl
  | cons c cs ih =>
    by_cases hs : reSpecial c
    · simp [reEscapeL, hs, tokenize, ih]
    · have hf : reSpecial c = false := by simpa using hs
      simp only [reEscapeL, hf, Bool.false_eq_true, if_false, List.singleton_append,
        List.cons_append, List.map_cons]
      rw [tokenize_cons c _ (not_reSpecial_backslash c hf) (not_reSpecial_dot c hf),
        List.nil_append, ih]

/-- A token list of plain literals matches exactly the equal string. -/
theorem matchToks_lits (cs ds : List Char) :
    matchToks (cs.map Tok.lit) ds = true ↔ cs = ds := by
  induction cs generalizing ds with
  | nil => cases ds <;> simp [matchToks]
  | cons c cs ih =>
    cases ds with
    | nil => simp [matchToks]
    | cons d ds => simp [matchToks, ih]

/-- A non-empty string has a non-empty character list. -/
theorem data_isEmpty_false (s : String) (h : s ≠ "") : s.data.isEmpty = false := by
  cases s with
  | mk l =>
    cases l with
    | nil => exact absurd rfl h
    | cons c t => rfl

/-- `addDirStep` never removes entries from the done-set. -/
theorem addDirStep_done_mono (ctx : AddDirCtx) (acc : DirState × Bool) (dir : String) :
    acc.1.doneDirs ⊆ (addDirStep ctx acc dir).1.doneDirs := by
  unfold addDirStep
  split_ifs <;> simp

/-- The `addDirectory` loop never removes entries from the done-set. -/
theorem foldl_done_mono (ctx : AddDirCtx) (dirs : List String) (acc : DirState × Bool) :
    acc.1.doneDirs ⊆ (dirs.foldl (addDirStep ctx) acc).1.doneDirs := by
  induction dirs generalizing acc with
  | nil => simp
  | cons d ds ih => exact (addDirStep_done_mono ctx acc d).trans (ih _)

/-- After the `addDirectory` loop, every processed candidate is either in
the final done-set or was skipped for one of the two context-only
reasons (scan-subdir membership or the depth cap). -/
theorem foldl_covers (ctx : AddDirCtx) (dirs : List String) (acc : DirState × Bool) :
    ∀ d ∈ dirs, d ∈ (dirs.foldl (addDirStep ctx) acc).1.doneDirs ∨
      d ∈ ctx.scanSubdirs ∨
      (ctx.recursion_depth ≠ 0 ∧ countChar '/' d > ctx.recursion_depth) := by
  induction dirs generalizing acc with
  | nil => simp
  | cons e ds ih =>
    intro d hd
    rcases List.mem_cons.mp hd with rfl | hd
    · by_cases h1 : d ∈ ctx.scanSubdirs
      · exact Or.inr (Or.inl h1)
      by_cases h3 : ctx.recursion_depth ≠ 0 ∧ countChar '/' d > ctx.recursion_depth
      · exact Or.inr (Or.inr h3)
      left
      have hmem : d ∈ (addDirStep ctx acc d).1.doneDirs := by
        unfold addDirStep
        rw [if_neg h1]
        by_cases hB : d ∈ acc.1.doneDirs
        · rw [if_pos hB]
          exact hB
        · rw [if_neg hB, if_neg h3]
          simp
      exact foldl_done_mono ctx ds _ hmem
    · exact ih _ d hd

/-- When every candidate is skipped, the `addDirectory` loop is a no-op. -/
theorem foldl_skips_noop (ctx : AddDirCtx) (dirs : List String) (st : DirState) (b : Bool)
    (h : ∀ d ∈ dirs, stepSkips ctx st.doneDirs d) :
    dirs.foldl (addDirStep ctx) (st, b) = (st, b) := by
  induction dirs with
  | nil => rfl
  | cons e ds ih =>
    have he := h e (by simp)
    have hstep : addDirStep ctx (st, b) e = (st, b) := by
      unfold addDirStep
      split_ifs with hA hB hC
      · rfl
      · rfl
      · rfl
      · rcases he with h1 | h2 | h3
        exacts [absurd h1 hA, absurd h2 hB, absurd h3 hC]
    rw [List.foldl_cons, hstep]
    exact ih (fun d hd => h d (by simp [hd]))

/-! ## Claim theorems -/

/-- C1: for a target calibrated with `invalidStatus = 404`, `scan`
returns found exactly when the response status differs from 404,
whatever the body, the redirect location, the comparator and the
threshold are. -/
theorem scan_invalid404_iff (st : ScannerState) (f : Option String → ℚ) (path : String)
    (r : Response) (h : st.invalidStatus = 404) :
    scan st f path r = true ↔ r.status ≠ 404 := by
  by_cases hs : r.status = 404
  · simp [scan, h, hs]
  · simp [scan, h, hs]
    exact Or.inl (fun hh => hs hh.symm)

/-- C1 witness: a 404-calibrated target reports a 200 response as found. -/
theorem scan_invalid404_witness :
    scan { invalidStatus := 404, redirectRegExp := none, hasDynamicParser := false,
           ratio := 98 / 100 } (fun _ => 0) "p"
      { status := 200, body := none, redirect := none } = true :=
  (scan_invalid404_iff _ _ _ _ rfl).mpr (by decide)

/-- C2 counterexample: for two identical non-404 baselines
(`comparisonRatio = 1`) with first response length 100 < 2000, `setup`
derives the threshold 9/10 = 0.90, not the 0.88 stated by the claim. -/
theorem setup_threshold_counterexample :
    setup "a" ⟨200, some "x", none⟩ "b" ⟨200, some "x", none⟩ 1 100
      = .ok ⟨200, none, true, 9 / 10⟩ ∧ (9 / 10 : ℚ) ≠ 88 / 100 := by
  constructor
  · unfold setup
    norm_num [truthyS, round2]
  · norm_num

/-- C2 amended: for identical baselines (measured `comparisonRatio = 1`)
on a non-404 target, the derived threshold is 0.98 when the first
response length is at least 2000 and 0.90 (= 1.0 − 0.1) when it is
shorter. -/
theorem setup_threshold_amended (p1 p2 : String) (fr sr : Response) (len : Nat)
    (st : ScannerState) (h : fr.status ≠ 404)
    (hok : setup p1 fr p2 sr 1 len = .ok st) :
    st.ratio = if len < 2000 then 9 / 10 else 98 / 100 := by
  unfold setup at hok
  rw [if_neg h] at hok
  rcases hb1 : fr.body with _ | b1 <;> rw [hb1] at hok <;>
    rcases hb2 : sr.body with _ | b2 <;> rw [hb2] at hok <;> simp at hok
  rw [← hok]
  have hr : round2 (1 : ℚ) = 1 := by norm_num [round2]
  by_cases hl : len < 2000 <;> simp [hl, hr] <;> norm_num

/-- C2 amended witness: instance of the amended threshold law at a
concrete short baseline. -/
theorem setup_threshold_amended_witness :
    ({ invalidStatus := 200, redirectRegExp := none, hasDynamicParser := true,
       ratio := 9 / 10 } : ScannerState).ratio = if 100 < 2000 then 9 / 10 else 98 / 100 :=
  setup_threshold_amended "a" "b" ⟨200, some "x", none⟩ ⟨200, some "x", none⟩ 100 _
    (by decide) (by unfold setup; norm_num [truthyS, round2])

/-- C3 counterexample: with a redirect pattern present, a redirecting
response at the invalid status whose location does not match the
substituted pattern, and a comparator ratio of 1 (above threshold −
0.15), `scan` returns found — the claim would require not-found. -/
theorem scan_redirect_mismatch_counterexample :
    reMatch (substRedirect "^/x/DIRSEARCH_PATH/login$" "cccc") "/x/cccc/admin" = false ∧
    ((1 : ℚ) ≥ 98 / 100 - 15 / 100) ∧
    scan { invalidStatus := 200, redirectRegExp := some "^/x/DIRSEARCH_PATH/login$",
           hasDynamicParser := true, ratio := 98 / 100 } (fun _ => 1) "cccc"
      { status := 200, body := some "b", redirect := some "/x/cccc/admin" } = true :=
  ⟨by decide, by norm_num, by decide⟩

/-- C3 amended: when the redirect check runs (pattern and location both
truthy) on a response at the non-404 invalid status, a location that
matches the substituted pattern makes the result not-found exactly when
the comparator ratio is at least threshold − 0.15, while a location that
fails to match makes the result found immediately; without a redirect
check the plain threshold decides. -/
theorem scan_redirect_tolerance_amended (st : ScannerState) (f : Option String → ℚ)
    (path : String) (r : Response) (h404 : st.invalidStatus ≠ 404)
    (hst : r.status = st.invalidStatus) :
    (∀ rx loc, st.redirectRegExp = some rx → rx ≠ "" → r.redirect = some loc → loc ≠ "" →
      ((reMatch (substRedirect rx path) loc = true →
          (scan st f path r = false ↔ f r.body ≥ st.ratio - 15 / 100)) ∧
       (reMatch (substRedirect rx path) loc = false → scan st f path r = true))) ∧
    ((truthyS st.redirectRegExp = false ∨ truthyS r.redirect = false) →
      (scan st f path r = false ↔ f r.body ≥ st.ratio)) := by
  have hg1 : ¬(st.invalidStatus = r.status ∧ r.status = 404) := by
    rintro ⟨-, hc⟩
    exact h404 (hst ▸ hc)
  have hg2 : ¬st.invalidStatus ≠ r.status := by simp [hst]
  constructor
  · intro rx loc hrx hrxne hloc hlocne
    have hrc : redirectCheckResult st.redirectRegExp r.redirect path
        = some (reMatch (substRedirect rx path) loc) := by
      rw [hrx, hloc]
      simp only [redirectCheckResult]
      rw [data_isEmpty_false rx hrxne, data_isEmpty_false loc hlocne]
      simp
    constructor
    · intro hm
      rw [hm] at hrc
      simp only [scan, hg1, if_false, hg2, hrc]
      by_cases hA : f r.body ≥ st.ratio
      · have : f r.body ≥ st.ratio - 15 / 100 := by linarith
        simp [hA, this]
      · by_cases hB : f r.body ≥ st.ratio - 15 / 100 <;> simp [hA, hB]
    · intro hm
      rw [hm] at hrc
      simp [scan, hg1, hg2, hrc]
  · intro hnone
    have hrc : redirectCheckResult st.redirectRegExp r.redirect path = none := by
      unfold redirectCheckResult
      rcases hx : st.redirectRegExp with _ | rx <;> rcases hy : r.redirect with _ | loc <;>
        simp_all [truthyS]
    simp only [scan, hg1, if_false, hg2, hrc]
    by_cases hA : f r.body ≥ st.ratio <;> simp [hA]

/-- C3 amended witness: a matched redirect with ratio 0.90 inside the
tolerance band is classified not-found. -/
theorem scan_redirect_tolerance_witness :
    scan { invalidStatus := 200, redirectRegExp := some "^/a/DIRSEARCH_PATH$",
           hasDynamicParser := true, ratio := 98 / 100 } (fun _ => 9 / 10) "p"
      { status := 200, body := some "b", redirect := some "/a/p" } = false := by
  have h := (scan_redirect_tolerance_amended
    { invalidStatus := 200, redirectRegExp := some "^/a/DIRSEARCH_PATH$",
      hasDynamicParser := true, ratio := 98 / 100 } (fun _ => 9 / 10) "p"
    { status := 200, body := some "b", redirect := some "/a/p" } (by decide) rfl).1
    "^/a/DIRSEARCH_PATH$" "/a/p" rfl (by decide) rfl (by decide)
  exact (h.1 (by decide)).mpr (by norm_num)

/-- C4: the pattern generalized from the baseline redirects
`/x/aaaa/login` (probe `aaaa`) and `/x/bbbb/login` (probe `bbbb`), with
the probed path substituted as `scan` does, matches `/x/cccc/login` for
every probe string `cccc` and never matches `/x/cccc/admin`. -/
theorem generateRedirectRegExp_generalizes (cccc : String) :
    reMatch (substRedirect
        (generateRedirectRegExp "/x/aaaa/login" "aaaa" "/x/bbbb/login" "bbbb") cccc)
      ("/x/" ++ cccc ++ "/login") = true ∧
    reMatch (substRedirect
        (generateRedirectRegExp "/x/aaaa/login" "aaaa" "/x/bbbb/login" "bbbb") cccc)
      ("/x/" ++ cccc ++ "/admin") = false := by
  have hgen : generateRedirectRegExp "/x/aaaa/login" "aaaa" "/x/bbbb/login" "bbbb"
      = "^/x/DIRSEARCH_PATH/login$" := rfl
  have hsub : substRedirect "^/x/DIRSEARCH_PATH/login$" cccc
      = "^/x/" ++ reEscape cccc ++ "/login$" := rfl
  have hne : (reEscapeL cccc.data ++ "/login$".data) ≠ [] := by
    intro hx
    have := (List.append_eq_nil.mp hx).2
    simp_all
  have htoks : tokenize ((("^/x/" ++ reEscape cccc ++ "/login$").data.drop 1).dropLast)
      = List.map Tok.lit ('/' :: 'x' :: '/' :: (cccc.data ++ "/login".data)) := by
    rw [show ("^/x/" ++ reEscape cccc ++ "/login$").data
        = '^' :: (['/', 'x', '/'] ++ (reEscapeL cccc.data ++ "/login$".data)) from rfl]
    rw [List.drop_one, List.tail_cons]
    rw [dropLast_append_right _ _ hne, dropLast_append_right _ _ (by simp)]
    rw [show ("/login$".data.dropLast : List Char) = "/login".data from rfl]
    rw [show (['/', 'x', '/'] ++ (reEscapeL cccc.data ++ "/login".data) : List Char)
        = '/' :: 'x' :: '/' :: (reEscapeL cccc.data ++ "/login".data) from rfl]
    rw [tokenize_cons '/' _ (by decide) (by decide), tokenize_cons 'x' _ (by decide) (by decide),
      tokenize_cons '/' _ (by decide) (by decide), tokenize_reEscapeL_append]
    rw [show tokenize "/login".data = List.map Tok.lit "/login".data from rfl]
    simp
  rw [hgen, hsub]
  unfold reMatch
  rw [htoks]
  constructor
  · exact (matchToks_lits _ _).mpr rfl
  · rw [Bool.eq_false_iff]
    intro hmatch
    have hlists := (matchToks_lits _ _).mp hmatch
    have h2 : ('/' :: 'x' :: '/' :: (cccc.data ++ "/login".data) : List Char)
        = '/' :: 'x' :: '/' :: (cccc.data ++ "/admin".data) := hlists
    have h3 : cccc.data ++ "/login".data = cccc.data ++ "/admin".data := by
      simp at h2
    exact absurd (List.append_cancel_left h3) (by decide)

/-- C5: evaluating the queue-seeding code at `scanSubdirs = ["admin/"]`:
the `for … else` (whose `else` always runs, the loop having no `break`)
enqueues the root `""` after the explicit subdirectory, and the queue
length then disagrees with the controller's own initial `allJobs`
count of line 150. -/
theorem seedQueue_for_else_bug :
    seedQueue ["admin/"] = ["admin/", ""] ∧
    (seedQueue ["admin/"]).length ≠ initAllJobs ["admin/"] := by decide

/-- C6 counterexample: in deep-recursive mode with current directory `""`
and no exclusions, `addDirectory "a/b/c"` does not enqueue the three
prefixes claimed — in particular `a/b/c/` is never enqueued. -/
theorem addDirectory_deep_counterexample :
    ((addDirectory ⟨"", [], [], 0, true, false, false⟩ ⟨[], [], 1⟩ "a/b/c").1.directories
      ≠ ["a/", "a/b/", "a/b/c/"]) ∧
    "a/b/c/" ∉ (addDirectory ⟨"", [], [], 0, true, false, false⟩
      ⟨[], [], 1⟩ "a/b/c").1.directories := by
  decide

/-- C6 amended: in deep-recursive mode with current directory `""` and no
exclusions, `addDirectory "a/b/c"` enqueues exactly the two proper
prefixes `a/` and `a/b/` (the loop bound `range(1, count("/") + 1)`
stops at the slash count, so the leaf level without a trailing slash is
not included). -/
theorem addDirectory_deep_amended :
    addDirectory ⟨"", [], [], 0, true, false, false⟩ ⟨[], [], 1⟩ "a/b/c"
      = (⟨["a/", "a/b/"], ["a/", "a/b/"], 3⟩, true) := by decide

/-- C7: `addDirectory` is idempotent through the done-set: a second call
whose path cleans to the same path as the first adds nothing — the state
is unchanged (no new queue entry, no new done-set entry) and the call
reports `false`. -/
theorem addDirectory_idempotent (ctx : AddDirCtx) (st : DirState) (p1 p2 : String)
    (h : cleanPath p1 = cleanPath p2) :
    addDirectory ctx (addDirectory ctx st p1).1 p2 = ((addDirectory ctx st p1).1, false) := by
  unfold addDirectory
  rw [← h]
  by_cases hex : (ctx.excludeSubdirs.any (fun d => sStartsWith (cleanPath p1) d)) = true
  · simp [hex]
  · simp only [hex, Bool.false_eq_true, if_false]
    apply foldl_skips_noop
    intro d hd
    have hcov := foldl_covers ctx (candidateDirs ctx (cleanPath p1)) (st, false) d hd
    unfold stepSkips
    tauto

/-- C7 witness: re-adding `a/` (via the query-stripped `a/?q=1`) after a
first `addDirectory "a/"` is a no-op that returns `false`. -/
theorem addDirectory_idempotent_witness :
    addDirectory ⟨"", [], [], 0, false, false, true⟩
      (addDirectory ⟨"", [], [], 0, false, false, true⟩ ⟨[], [], 1⟩ "a/").1 "a/?q=1"
      = ((addDirectory ⟨"", [], [], 0, false, false, true⟩ ⟨[], [], 1⟩ "a/").1, false) :=
  addDirectory_idempotent ⟨"", [], [], 0, false, false, true⟩ ⟨[], [], 1⟩ "a/" "a/?q=1"
    (by decide)

/-- C8 counterexample: a redirecting match result whose resolved,
port-normalized redirect falls outside the current directory enqueues
nothing and leaves the state unchanged, although `addDirectory` on the
probed path `admin/` would have enqueued it — so the probed path is not
passed to `addDirectory` in that case. -/
theorem addRedirectDirectory_counterexample :
    recurseOnResult ⟨"", [], [], 0, false, false, true⟩ [] "http://example.com:80" "/"
        (fun _ l => l) ⟨[], [], 1⟩ ⟨"admin/", 301, "", some "http://other.com/"⟩
      = (⟨[], [], 1⟩, false) ∧
    (addDirectory ⟨"", [], [], 0, false, false, true⟩ ⟨[], [], 1⟩ "admin/").1.directories
      = ["admin/"] :=
  ⟨by decide, by decide⟩

/-- C8 amended: for a redirecting result, the resolved and
port-normalized redirect URL is tested against the probe URL plus `/`;
inside that prefix the stripped relative path goes to `addDirectory`,
otherwise `addRedirectDirectory` enqueues nothing and returns `false`
(the probed path is handed to `addDirectory` only for non-redirecting
results). -/
theorem addRedirectDirectory_amended (ctx : AddDirCtx) (baseUrl basePath : String)
    (resolve : String → String → String) (st : DirState) (probePath loc : String) :
    (sStartsWith (addPort (resolve baseUrl loc))
        (baseUrl ++ basePath ++ ctx.currentDirectory ++ probePath ++ "/") = true →
      addRedirectDirectory ctx baseUrl basePath resolve st probePath loc
        = addDirectory ctx st (pyReplace (addPort (resolve baseUrl loc))
            (baseUrl ++ basePath ++ ctx.currentDirectory) "")) ∧
    (sStartsWith (addPort (resolve baseUrl loc))
        (baseUrl ++ basePath ++ ctx.currentDirectory ++ probePath ++ "/") = false →
      addRedirectDirectory ctx baseUrl basePath resolve st probePath loc = (st, false)) := by
  unfold addRedirectDirectory
  constructor <;> intro hs <;> simp [hs]

/-- C8 amended witness: a redirect to a proper sub-path of the probe URL
recurses on the stripped relative path. -/
theorem addRedirectDirectory_amended_witness :
    addRedirectDirectory ⟨"", [], [], 0, false, false, true⟩ "http://e.com:80" "/"
        (fun _ l => l) ⟨[], [], 1⟩ "admin" "http://e.com:80/admin/sub/"
      = addDirectory ⟨"", [], [], 0, false, false, true⟩ ⟨[], [], 1⟩
          (pyReplace (addPort ((fun (_ l : String) => l) "http://e.com:80"
            "http://e.com:80/admin/sub/")) ("http://e.com:80" ++ "/" ++ "") "") :=
  (addRedirectDirectory_amended ⟨"", [], [], 0, false, false, true⟩ "http://e.com:80" "/"
    (fun _ l => l) ⟨[], [], 1⟩ "admin" "http://e.com:80/admin/sub/").1 (by decide)

/-- C9: a result whose status is in the skip-on-status set makes
`matchCallback` record the skip signal and stop (no rejection, no
finding, whatever the later filter steps would do), and the job loop
then aborts the whole target with the skip-target interrupt, so no
remaining entry of the target is processed as a finding. -/
theorem skip_status_aborts_target (skips : List Nat) (rest : ProbeResult → PostSkipAction)
    (pre suf : List ProbeResult) (r : ProbeResult) (c : Nat)
    (hpre : ∀ x ∈ pre, firstSkip skips x.status = none)
    (hr : firstSkip skips r.status = some c) :
    matchCallbackAction skips rest r = MatchAction.skip c ∧
    runJob skips rest (pre ++ r :: suf) = Except.error c := by
  have hmc : matchCallbackAction skips rest r = MatchAction.skip c := by
    unfold matchCallbackAction
    rw [hr]
  refine ⟨hmc, ?_⟩
  induction pre with
  | nil => simp [runJob, hmc]
  | cons x pre ih =>
    have hx := hpre x (by simp)
    have ihh := ih (fun y hy => hpre y (by simp [hy]))
    rw [List.cons_append]
    have hxm : matchCallbackAction skips rest x =
        (match rest x with
         | PostSkipAction.reject => MatchAction.reject
         | PostSkipAction.finding p => MatchAction.finding p) := by
      unfold matchCallbackAction
      rw [hx]
    cases hrx : rest x with
    | reject =>
      rw [hrx] at hxm
      simp only [runJob, hxm]
      exact ihh
    | finding p =>
      rw [hrx] at hxm
      simp only [runJob, hxm]
      rw [ihh]
      rfl

/-- C9 witness: with skip-on-status `[429]`, a 429 in mid-stream aborts
the target and the trailing entry is never reported. -/
theorem skip_status_aborts_target_witness :
    runJob [429] (fun q => PostSkipAction.finding q.path)
      ([⟨"a", 200, "", none⟩] ++ (⟨"b", 429, "", none⟩ : ProbeResult) ::
        [⟨"c", 200, "", none⟩]) = Except.error 429 :=
  (skip_status_aborts_target [429] (fun q => PostSkipAction.finding q.path)
    [⟨"a", 200, "", none⟩] [⟨"c", 200, "", none⟩] ⟨"b", 429, "", none⟩ 429
    (by decide) (by decide)).2

/-- C10: `setup` on a non-404 first probe with a missing baseline body
raises (the unconditional `comparisonRatio` access on the `None`
comparator), it completes normally only when the first status is 404 or
both bodies are present, and a normally-produced non-404 profile always
carries a body comparator. -/
theorem setup_requires_comparator (p1 p2 : String) (fr sr : Response) (cr : ℚ) (len : Nat) :
    ((fr.status ≠ 404 ∧ (fr.body = none ∨ sr.body = none)) →
      setup p1 fr p2 sr cr len = .error ()) ∧
    (∀ st, setup p1 fr p2 sr cr len = .ok st →
      fr.status = 404 ∨ (fr.body ≠ none ∧ sr.body ≠ none)) ∧
    (∀ st, setup p1 fr p2 sr cr len = .ok st →
      st.invalidStatus ≠ 404 → st.hasDynamicParser = true) := by
  unfold setup
  by_cases h4 : fr.status = 404
  · refine ⟨fun hc => absurd h4 hc.1, fun st hok => Or.inl h4, fun st hok hne => ?_⟩
    rw [if_pos h4] at hok
    simp only [Except.ok.injEq] at hok
    rw [← hok] at hne
    exact absurd h4 hne
  · rw [if_neg h4]
    rcases hb1 : fr.body with _ | b1 <;> rcases hb2 : sr.body with _ | b2 <;>
      simp_all

/-- C10 witness: a 200 first probe without a body makes `setup` fail. -/
theorem setup_requires_comparator_witness :
    setup "a" ⟨200, none, none⟩ "b" ⟨200, some "x", none⟩ 1 100 = .error () :=
  (setup_requires_comparator "a" "b" ⟨200, none, none⟩ ⟨200, some "x", none⟩ 1 100).1
    (by simp)
